import Mathlib

/-!
Shallow embedding of the idjc-x decode/encode modules
(src/c/live_webm_encoder.c and src/c/avcodecdecode.c) for checking the
natural-language specification.  External libav* calls are modelled by
boolean outcome parameters (success/failure of each call) and, for the
muxer, by an explicit list of write-callback invocations; everything the
repository's own code does with those outcomes is translated faithfully.
-/

/-! ### Encoder life-cycle state machine (live_webm_encoder.c) -/

/-- The encoder_state values of the surrounding encoder framework that
live_webm_encoder_main reads or assigns. -/
inductive EncoderState
  | ES_STARTING
  | ES_RUNNING
  | ES_STOPPING
  | ES_STOPPED
deriving DecidableEq, Repr, Fintype

/-- Fields of struct encoder that live_webm_encoder_main reads or writes. -/
structure Encoder where
  encoder_state : EncoderState
  run_request_f : Bool
  new_metadata : Bool
  use_metadata : Bool
  flush : Bool
deriving DecidableEq, Repr, Fintype

/-- Result of write_audio_frame as used by the ES_RUNNING branch:
`ok` is the source's 0 (frame handled, keep running), `err` is -1
(encode/write error), `done` is 1 (run request withdrawn). -/
inductive FrameResult
  | ok
  | err
  | done
deriving DecidableEq, Repr, Fintype

/-- Outcomes of the external calls a single live_webm_encoder_main
invocation can make: the two setup calls in the ES_STARTING branch and
the write_audio_frame result in the ES_RUNNING branch. -/
structure MainInputs where
  setup_self_ok : Bool
  setup_meta_ok : Bool
  frame_result : FrameResult
deriving DecidableEq, Repr, Fintype

/-- The bailout label of live_webm_encoder_main: cleanup sets
run_request_f and flush to FALSE and encoder_state to ES_STOPPED
(it also nulls run_encoder and encoder_private and frees the state,
which is not tracked here). -/
def bailout (e : Encoder) : Encoder :=
  { e with encoder_state := .ES_STOPPED, run_request_f := false, flush := false }

/-- One invocation of live_webm_encoder_main, translated branch by branch
from src/c/live_webm_encoder.c lines 383-456.  The metadata/flush blocks
of the ES_RUNNING branch only perform muxer I/O plus the recorded field
resets, so only their field effects appear here. -/
def live_webm_encoder_main (i : MainInputs) (e : Encoder) : Encoder :=
  match e.encoder_state with
  | .ES_STARTING =>
      if !i.setup_self_ok then bailout e
      else if !i.setup_meta_ok then bailout e
      else if e.run_request_f then { e with encoder_state := .ES_RUNNING }
      else { e with encoder_state := .ES_STOPPING }
  | .ES_RUNNING =>
      let e1 := if e.new_metadata && e.use_metadata then { e with new_metadata := false } else e
      let e2 := if e1.flush then { e1 with flush := false } else e1
      match i.frame_result with
      | .ok => e2
      | _ => { e2 with encoder_state := .ES_STOPPING }
  | .ES_STOPPING =>
      if e.run_request_f then { e with encoder_state := .ES_STARTING, flush := false }
      else bailout { e with flush := false }
  | .ES_STOPPED => bailout e

/-- The values live_webm_encoder_main assigns to encoder->encoder_state
during one invocation, in program order. -/
def main_state_assignments (i : MainInputs) (e : Encoder) : List EncoderState :=
  match e.encoder_state with
  | .ES_STARTING =>
      if !i.setup_self_ok then [.ES_STOPPED]
      else if !i.setup_meta_ok then [.ES_STOPPED]
      else if e.run_request_f then [.ES_RUNNING]
      else [.ES_STOPPING]
  | .ES_RUNNING =>
      match i.frame_result with
      | .ok => []
      | _ => [.ES_STOPPING]
  | .ES_STOPPING =>
      if e.run_request_f then [.ES_STARTING] else [.ES_STOPPED]
  | .ES_STOPPED => [.ES_STOPPED]

/-- Whether the invocation reaches the bailout cleanup label. -/
def bailout_taken (i : MainInputs) (e : Encoder) : Bool :=
  match e.encoder_state with
  | .ES_STARTING => !i.setup_self_ok || !i.setup_meta_ok
  | .ES_RUNNING => false
  | .ES_STOPPING => !e.run_request_f
  | .ES_STOPPED => true

/-- Position of a state in the STARTING -> RUNNING -> STOPPING -> STOPPED
progression named by the spec. -/
def stateRank : EncoderState → Nat
  | .ES_STARTING => 0
  | .ES_RUNNING => 1
  | .ES_STOPPING => 2
  | .ES_STOPPED => 3

/-! ### Mutex discipline around avcodec_open2 / avcodec_close -/

/-- The events relevant to the g.avc_mutex discipline: taking and
releasing the mutex (the trylock/nanosleep spin is acquisition), and the
calls into the codec open/close API. -/
inductive AVCall
  | lock
  | unlock
  | callOpen
  | callClose
deriving DecidableEq, Repr

/-- Checks that every event selected by sel happens while the mutex is
held, scanning a straight-line event trace with the current hold depth. -/
def callsGuarded (sel : AVCall → Bool) : Nat → List AVCall → Bool
  | _, [] => true
  | d, .lock :: t => callsGuarded sel (d + 1) t
  | d, .unlock :: t => callsGuarded sel (d - 1) t
  | d, .callOpen :: t => (!sel .callOpen || decide (0 < d)) && callsGuarded sel d t
  | d, .callClose :: t => (!sel .callClose || decide (0 < d)) && callsGuarded sel d t

/-- Every codec open/close call in the trace happens under the mutex. -/
def guarded (t : List AVCall) : Bool := callsGuarded (fun _ => true) 0 t

def isOpenCall : AVCall → Bool
  | .callOpen => true
  | _ => false

def isCloseCall : AVCall → Bool
  | .callClose => true
  | _ => false

/-- avcodecdecode_eject, lines 62-66: avcodec_close under the mutex. -/
def avcodecdecode_eject_calls : List AVCall := [.lock, .callClose, .unlock]

/-- avcodecdecode_reg main path, lines 471-498: the av_find_best_stream
region (no open/close inside) followed by avcodec_open2 under the mutex;
the open-failure branch unlocks before returning, giving the same event
list. -/
def avcodecdecode_reg_calls : List AVCall := [.lock, .unlock, .lock, .callOpen, .unlock]

/-- avcodecdecode_reg when av_find_best_stream fails, lines 473-479:
the function returns while still holding the mutex; no open/close call
is made. -/
def avcodecdecode_reg_nostream_calls : List AVCall := [.lock]

/-- open_stream success path (and the avcodec_open2 failure path),
live_webm_encoder.c lines 131-134: avcodec_open2 under the mutex. -/
def open_stream_calls : List AVCall := [.lock, .callOpen, .unlock]

/-- open_stream when swr_alloc fails, line 153: avcodec_close with the
mutex not held. -/
def open_stream_swr_alloc_fail_calls : List AVCall := [.lock, .callOpen, .unlock, .callClose]

/-- open_stream when swr_init fails, line 167: avcodec_close with the
mutex not held. -/
def open_stream_swr_init_fail_calls : List AVCall := [.lock, .callOpen, .unlock, .callClose]

/-- close_stream, line 243: avcodec_close with the mutex not held. -/
def close_stream_calls : List AVCall := [.callClose]

/-- Every straight-line path through the two modules that contains an
avcodec_open2 or avcodec_close call (entered with the mutex not held). -/
def module_codec_call_sites : List (List AVCall) :=
  [avcodecdecode_eject_calls, avcodecdecode_reg_calls, avcodecdecode_reg_nostream_calls,
   open_stream_calls, open_stream_swr_alloc_fail_calls, open_stream_swr_init_fail_calls,
   close_stream_calls]

/-! ### avcodecdecode_reg (avcodecdecode.c lines 431-505) -/

def ACCEPTED : Nat := 1
def REJECTED : Nat := 0

/-- Success of each fallible step of avcodecdecode_reg, in program
order.  The optional tag-reading fopen block only sets metadata fields
and cannot change the result, so it is not a parameter. -/
structure RegProfile where
  calloc_ok : Bool
  open_input_ok : Bool
  find_stream_info_ok : Bool
  find_best_stream_ok : Bool
  codec_open_ok : Bool
deriving DecidableEq, Repr, Fintype

structure RegResult where
  result : Nat
  callbacks_installed : Bool
  self_allocated : Bool
  self_freed : Bool
deriving DecidableEq, Repr

/-- avcodecdecode_reg translated step by step: each failure branch frees
the allocated decoder state (after closing whatever was opened) and
returns REJECTED; the callbacks dec_init/dec_play/dec_eject are
installed only after every step has succeeded. -/
def avcodecdecode_reg (p : RegProfile) : RegResult :=
  if !p.calloc_ok then ⟨REJECTED, false, false, false⟩
  else if !p.open_input_ok then ⟨REJECTED, false, true, true⟩
  else if !p.find_stream_info_ok then ⟨REJECTED, false, true, true⟩
  else if !p.find_best_stream_ok then ⟨REJECTED, false, true, true⟩
  else if !p.codec_open_ok then ⟨REJECTED, false, true, true⟩
  else ⟨ACCEPTED, true, true, false⟩

def all_reg_ok (p : RegProfile) : Bool :=
  p.calloc_ok && p.open_input_ok && p.find_stream_info_ok &&
    p.find_best_stream_ok && p.codec_open_ok

/-! ### add_stream (live_webm_encoder.c lines 59-95) -/

def AV_CH_LAYOUT_MONO : Int := 4
def AV_CH_LAYOUT_STEREO : Int := 3
def AV_SAMPLE_FMT_FLTP : Int := 8

/-- Outcomes and library-owned data add_stream depends on. -/
structure AddStreamOutcome where
  find_encoder_ok : Bool
  codec_is_audio : Bool
  new_stream_ok : Bool
  codec_has_sample_fmts : Bool
  first_sample_fmt : Int
  oformat_global_header : Bool
deriving DecidableEq, Repr

/-- The codec-context and stream fields add_stream writes. -/
structure StreamConfig where
  sample_fmt : Int
  bit_rate : Int
  sample_rate : Int
  channels : Int
  channel_layout : Int
  st_id : Int
  time_base_num : Int
  time_base_den : Int
  global_header_flag : Bool
deriving DecidableEq, Repr

/-- add_stream translated from the source: the three failure checks
return NULL (none); on success the codec context and stream are
configured from the br/sr/ch arguments. -/
def add_stream (o : AddStreamOutcome) (br sr ch : Int) : Option StreamConfig :=
  if !o.find_encoder_ok then none
  else if !o.codec_is_audio then none
  else if !o.new_stream_ok then none
  else some
    { sample_fmt := if o.codec_has_sample_fmts then o.first_sample_fmt else AV_SAMPLE_FMT_FLTP
      bit_rate := br
      sample_rate := sr
      channels := ch
      channel_layout := if ch = 2 then AV_CH_LAYOUT_STEREO else AV_CH_LAYOUT_MONO
      st_id := 0
      time_base_num := 1
      time_base_den := sr
      global_header_flag := o.oformat_global_header }

/-! ### avcodecdecode_init (avcodecdecode.c lines 73-124) -/

/-- Inputs of avcodecdecode_init: the stream's sample rate
(self->c->sample_rate), the player's rate (xlplayer->samplerate), the
stream's channel count, and the outcomes of the data_out malloc and of
src_new. -/
structure InitProfile where
  stream_rate : Int
  player_rate : Int
  c_channels : Int
  malloc_ok : Bool
  src_new_ok : Bool
deriving DecidableEq, Repr

/-- The fields avcodecdecode_init leaves behind: self->channels,
self->resample, the src_data.src_ratio value written (none when the
rate-difference branch is not entered), whether a libsamplerate state
was created, and whether the error path (eject, PM_STOPPED,
CMD_COMPLETE) was taken. -/
structure InitResult where
  channels : Int
  resample : Bool
  src_ratio : Option ℚ
  src_state_created : Bool
  aborted : Bool
deriving DecidableEq, Repr

/-- avcodecdecode_init translated from the source: channels collapses to
1 or 2; the resampler branch is entered exactly when the rates differ,
writes src_ratio = player rate / stream rate, and on malloc or src_new
failure resets resample and aborts playback. -/
def avcodecdecode_init (p : InitProfile) : InitResult :=
  let channels : Int := if p.c_channels = 1 then 1 else 2
  if p.stream_rate ≠ p.player_rate then
    let ratio : ℚ := (p.player_rate : ℚ) / (p.stream_rate : ℚ)
    if !p.malloc_ok then ⟨channels, false, some ratio, false, true⟩
    else if !p.src_new_ok then ⟨channels, false, some ratio, false, true⟩
    else ⟨channels, true, some ratio, true, false⟩
  else ⟨channels, false, none, false, false⟩

/-- Which buffer and frame count avcodecdecode_play hands to
xlplayer_demux_channel_data (lines 396-409): with the resampler engaged
it passes src_data.data_out and output_frames_gen, otherwise the decoded
floatsamples buffer and the frame's nb_samples unchanged. -/
structure PlayDispatch where
  used_resampler : Bool
  frames : Int
deriving DecidableEq, Repr

def avcodecdecode_play_dispatch (resample : Bool) (nb_samples output_frames_gen : Int) :
    PlayDispatch :=
  if resample then ⟨true, output_frames_gen⟩ else ⟨false, nb_samples⟩

/-! ### Planar sample conversion (avcodecdecode.c lines 282-392)

The non-swresample conversion switch.  Samples are modelled as exact
rationals; the int16 and int32 divisors are those of the source. -/

/-- The 2-channel planar loop: d walks the output while l and r walk the
two planes, one sample each per iteration, for the given frame count. -/
def interleave2 (s : ℚ → ℚ) (l r : ℕ → ℚ) : ℕ → List ℚ
  | 0 => []
  | n + 1 => interleave2 s l r n ++ [s (l n), s (r n)]

/-- The 1-channel loop: plane 0 copied (through the scale) in order. -/
def mono1 (s : ℚ → ℚ) (l : ℕ → ℚ) : ℕ → List ℚ
  | 0 => []
  | n + 1 => mono1 s l n ++ [s (l n)]

def conv_fltp_stereo (l r : ℕ → ℚ) (n : ℕ) : List ℚ := interleave2 id l r n

def conv_dblp_stereo (l r : ℕ → ℚ) (n : ℕ) : List ℚ := interleave2 id l r n

def conv_s16p_stereo (l r : ℕ → ℚ) (n : ℕ) : List ℚ :=
  interleave2 (fun x => x / 32768) l r n

def conv_s32p_stereo (l r : ℕ → ℚ) (n : ℕ) : List ℚ :=
  interleave2 (fun x => x / 1073741824) l r n

def conv_fltp_mono (l : ℕ → ℚ) (n : ℕ) : List ℚ := mono1 id l n

def conv_dblp_mono (l : ℕ → ℚ) (n : ℕ) : List ℚ := mono1 id l n

def conv_s16p_mono (l : ℕ → ℚ) (n : ℕ) : List ℚ := mono1 (fun x => x / 32768) l n

def conv_s32p_mono (l : ℕ → ℚ) (n : ℕ) : List ℚ := mono1 (fun x => x / 1073741824) l n

/-! ### Packet flags and the avio write callback (live_webm_encoder.c) -/

/-- The bits of enum packet_flags that this module touches, plus a
pf_other stand-in for any further bit of the enum (never touched by this
code, so one representative suffices). -/
structure PacketFlags where
  pf_webm : Bool
  pf_header : Bool
  pf_final : Bool
  pf_initial : Bool
  pf_suppress : Bool
  pf_other : Bool
deriving DecidableEq, Repr, Fintype

/-- Bitwise or of two flag words. -/
def pfOr (a b : PacketFlags) : PacketFlags :=
  ⟨a.pf_webm || b.pf_webm, a.pf_header || b.pf_header, a.pf_final || b.pf_final,
   a.pf_initial || b.pf_initial, a.pf_suppress || b.pf_suppress, a.pf_other || b.pf_other⟩

/-- flags &= ~mask : clear the bits of b in a. -/
def pfClear (a b : PacketFlags) : PacketFlags :=
  ⟨a.pf_webm && !b.pf_webm, a.pf_header && !b.pf_header, a.pf_final && !b.pf_final,
   a.pf_initial && !b.pf_initial, a.pf_suppress && !b.pf_suppress, a.pf_other && !b.pf_other⟩

def PF_WEBM : PacketFlags := ⟨true, false, false, false, false, false⟩
def PF_HEADER : PacketFlags := ⟨false, true, false, false, false, false⟩
def PF_FINAL : PacketFlags := ⟨false, false, true, false, false, false⟩
def PF_INITIAL : PacketFlags := ⟨false, false, false, true, false, false⟩
def PF_SUPPRESS : PacketFlags := ⟨false, false, false, false, true, false⟩

/-- Fields of struct encoder that write_packet/write_header read or
write. -/
structure WebMEnc where
  bitrate : Int
  target_samplerate : Int
  n_channels : Int
  oggserial : Int
  timestamp : ℚ
deriving DecidableEq, Repr

/-- The WebMState fields the packet path uses. -/
structure WebMSelf where
  next_pts : Int
  packet_flags : PacketFlags
deriving DecidableEq, Repr

/-- One packet as handed to encoder_write_packet_all. -/
structure OutPacket where
  bit_rate : Int
  sample_rate : Int
  n_channels : Int
  flags : PacketFlags
  data_size : Int
  serial : Int
  timestamp : ℚ
deriving DecidableEq, Repr

/-- Result of one callback-path function: packets emitted downstream,
the updated WebMState and encoder fields, and the C return value. -/
structure WPRes where
  emitted : List OutPacket
  self : WebMSelf
  enc : WebMEnc
  ret : Int
deriving DecidableEq, Repr

/-- write_packet (lines 250-269): unless PF_SUPPRESS is set it builds a
packet (flags = PF_WEBM | packet_flags, timestamp = next_pts / target
sample rate, also stored into encoder->timestamp) and emits it; in
either case it clears PF_INITIAL and returns 1. -/
def write_packet (s : WebMSelf) (e : WebMEnc) (buf_size : Int) : WPRes :=
  if !s.packet_flags.pf_suppress then
    let ts : ℚ := (s.next_pts : ℚ) / (e.target_samplerate : ℚ)
    ⟨[⟨e.bitrate, e.target_samplerate, e.n_channels, pfOr PF_WEBM s.packet_flags,
       buf_size, e.oggserial, ts⟩],
     ⟨s.next_pts, pfClear s.packet_flags PF_INITIAL⟩,
     { e with timestamp := ts }, 1⟩
  else
    ⟨[], ⟨s.next_pts, pfClear s.packet_flags PF_INITIAL⟩, e, 1⟩

/-- Result of a run of avio write callbacks issued by the muxer. -/
structure RCRes where
  emitted : List OutPacket
  self : WebMSelf
  enc : WebMEnc
deriving DecidableEq, Repr

/-- avformat_write_header / av_write_trailer are outside this code; what
they do through this module is invoke write_packet once per flushed
buffer.  bufs lists the buffer sizes of those invocations (possibly
empty). -/
def run_callbacks : WebMSelf → WebMEnc → List Int → RCRes
  | s, e, [] => ⟨[], s, e⟩
  | s, e, b :: bs =>
      let w := write_packet s e b
      let r := run_callbacks w.self w.enc bs
      ⟨w.emitted ++ r.emitted, r.self, r.enc⟩

/-- write_header (lines 272-282): bump oggserial unless the extra flags
suppress, set PF_HEADER | PF_INITIAL | extra, let the muxer write the
header (callbacks), then clear PF_HEADER and the extra flags.  libret is
the avformat_write_header return value, passed through. -/
def write_header (s : WebMSelf) (e : WebMEnc) (extra : PacketFlags)
    (bufs : List Int) (libret : Int) : WPRes :=
  let e1 := if !extra.pf_suppress then { e with oggserial := e.oggserial + 1 } else e
  let r := run_callbacks ⟨s.next_pts, pfOr s.packet_flags (pfOr (pfOr PF_HEADER PF_INITIAL) extra)⟩ e1 bufs
  ⟨r.emitted, ⟨r.self.next_pts, pfClear r.self.packet_flags (pfOr PF_HEADER extra)⟩, r.enc, libret⟩

/-- write_trailer (lines 285-295): set the extra flags, let the muxer
flush (callbacks), set PF_FINAL, emit the final packet through
write_packet(self, NULL, 0), then clear PF_FINAL and the extra flags. -/
def write_trailer (s : WebMSelf) (e : WebMEnc) (extra : PacketFlags)
    (bufs : List Int) (libret : Int) : WPRes :=
  let r := run_callbacks ⟨s.next_pts, pfOr s.packet_flags extra⟩ e bufs
  let w := write_packet ⟨r.self.next_pts, pfOr r.self.packet_flags PF_FINAL⟩ r.enc 0
  ⟨r.emitted ++ w.emitted, ⟨w.self.next_pts, pfClear w.self.packet_flags (pfOr PF_FINAL extra)⟩,
   w.enc, libret⟩

/-! ### setup and its error-path cleanup (live_webm_encoder.c lines 298-371) -/

/-- Success of each fallible step of setup, in program order.  The three
internal failure points of add_stream are collapsed into one flag since
setup only sees its NULL/non-NULL result. -/
structure SetupProfile where
  codec_supported : Bool
  alloc_ctx_ok : Bool
  guess_format_ok : Bool
  malloc_ok : Bool
  avio_alloc_ok : Bool
  add_stream_ok : Bool
  codec_open_ok : Bool
  swr_alloc_ok : Bool
  swr_init_ok : Bool
  header_ok : Bool
deriving DecidableEq, Repr

/-- Which resources the WebMState currently owns. -/
structure Resources where
  oc : Bool
  buffer : Bool
  avio_ctx : Bool
  codec_open : Bool
  frame : Bool
  tmp_frame : Bool
  swr : Bool
deriving DecidableEq, Repr

def noResources : Resources := ⟨false, false, false, false, false, false, false⟩

inductive SetupRet
  | SUCCEEDED
  | FAILED
deriving DecidableEq, Repr

/-- The fail4 cleanup of setup: av_freep the avio buffer and context,
then fall into fail2 which frees the format context. -/
def fail4_cleanup (r : Resources) : Resources :=
  { r with buffer := false, avio_ctx := false, oc := false }

/-- close_stream (lines 241-247) resource effect: close the codec, free
both frames and the resampler context. -/
def close_stream_res (r : Resources) : Resources :=
  { r with codec_open := false, frame := false, tmp_frame := false, swr := false }

/-- open_stream (lines 123-172) resource effect: open the codec, then
allocate both audio frames; if swr_alloc or swr_init fails, close the
codec (and free the swr context) but leave the two frames allocated. -/
def open_stream_res (p : SetupProfile) (r : Resources) : Bool × Resources :=
  if !p.codec_open_ok then (false, r)
  else
    let r1 := { r with codec_open := true, frame := true, tmp_frame := true }
    if !p.swr_alloc_ok then (false, { r1 with codec_open := false })
    else
      let r2 := { r1 with swr := true }
      if !p.swr_init_ok then (false, { r2 with swr := false, codec_open := false })
      else (true, r2)

/-- setup translated goto label by goto label.  The result is none when
the execution dereferences the NULL avio context: on avio_alloc_context
failure the code jumps to fail3 and evaluates self->avio_ctx->buffer
with self->avio_ctx == NULL, which is undefined behaviour. -/
def setup (p : SetupProfile) : Option (SetupRet × Resources) :=
  let r0 := noResources
  if !p.codec_supported then some (.FAILED, r0)
  else if !p.alloc_ctx_ok then some (.FAILED, r0)
  else
    let r1 := { r0 with oc := true }
    if !p.guess_format_ok then some (.FAILED, { r1 with oc := false })
    else if !p.malloc_ok then some (.FAILED, { r1 with oc := false })
    else
      let r2 := { r1 with buffer := true }
      if !p.avio_alloc_ok then none
      else
        let r3 := { r2 with avio_ctx := true }
        if !p.add_stream_ok then some (.FAILED, fail4_cleanup r3)
        else
          let res := open_stream_res p r3
          if !res.1 then some (.FAILED, fail4_cleanup res.2)
          else if !p.header_ok then some (.FAILED, fail4_cleanup (close_stream_res res.2))
          else some (.SUCCEEDED, res.2)

def all_setup_ok (p : SetupProfile) : Bool :=
  p.codec_supported && p.alloc_ctx_ok && p.guess_format_ok && p.malloc_ok &&
    p.avio_alloc_ok && p.add_stream_ok && p.codec_open_ok && p.swr_alloc_ok &&
    p.swr_init_ok && p.header_ok

/-- A concrete stream configuration used to instantiate theorems. -/
def sampleStreamConfig : StreamConfig :=
  ⟨3, 128000, 48000, 2, AV_CH_LAYOUT_STEREO, 0, 1, 48000, false⟩

/-- A concrete encoder-field record used to instantiate theorems. -/
def sampleWebMEnc : WebMEnc := ⟨128000, 48000, 2, 5, 0⟩

/-! ## Theorems -/

/-- C1 (counterexample): the claim says every encoder_state assignment
made by live_webm_encoder_main moves the state to a later stage of
STARTING -> RUNNING -> STOPPING -> STOPPED or leaves it unchanged.  In
ES_STOPPING with run_request_f set the function assigns ES_STARTING,
moving the state strictly back to an earlier stage. -/
theorem encoder_state_regresses_on_restart :
    stateRank ((live_webm_encoder_main ⟨true, true, .ok⟩
        ⟨.ES_STOPPING, true, false, false, false⟩).encoder_state) <
      stateRank (⟨.ES_STOPPING, true, false, false, false⟩ : Encoder).encoder_state := by
  decide

/-- C1 (amended): every encoder_state assignment of
live_webm_encoder_main moves the state to a later stage of the
STARTING -> RUNNING -> STOPPING -> STOPPED progression or leaves it
unchanged, with one exception: in ES_STOPPING with run_request_f set the
state is moved back to ES_STARTING so the encoder restarts. -/
theorem encoder_state_progression_except_restart :
    ∀ (i : MainInputs) (e : Encoder),
      stateRank e.encoder_state ≤ stateRank ((live_webm_encoder_main i e).encoder_state) ∨
        (e.encoder_state = .ES_STOPPING ∧ e.run_request_f = true ∧
          (live_webm_encoder_main i e).encoder_state = .ES_STARTING) := by
  decide

/-- C2 (counterexample): the claim says every avcodec_open2 and
avcodec_close call of the two modules happens while g.avc_mutex is
held.  close_stream calls avcodec_close with the mutex not held. -/
theorem close_stream_avcodec_close_unguarded :
    ¬ (∀ t ∈ module_codec_call_sites, guarded t = true) := by
  decide

/-- C2 (amended): every avcodec_open2 call of the two modules and the
decoder module's avcodec_close call are performed under g.avc_mutex,
but the encoder module's avcodec_close calls (in close_stream and in
the open_stream resampler failure paths) are performed without it. -/
theorem codec_mutex_guard_coverage :
    (∀ t ∈ module_codec_call_sites, callsGuarded isOpenCall 0 t = true) ∧
      callsGuarded isCloseCall 0 avcodecdecode_eject_calls = true ∧
      callsGuarded isCloseCall 0 close_stream_calls = false ∧
      callsGuarded isCloseCall 0 open_stream_swr_alloc_fail_calls = false ∧
      callsGuarded isCloseCall 0 open_stream_swr_init_fail_calls = false := by
  decide

/-- C3 (counterexample): the claim says every value the module assigns
to encoder->encoder_state is one of ES_STARTING, ES_RUNNING,
ES_STOPPING.  When setup fails in the ES_STARTING branch the bailout
path assigns ES_STOPPED. -/
theorem encoder_main_assigns_stopped :
    ¬ (∀ v ∈ main_state_assignments ⟨false, true, .ok⟩
          ⟨.ES_STARTING, true, false, false, false⟩,
        v = .ES_STARTING ∨ v = .ES_RUNNING ∨ v = .ES_STOPPING) := by
  decide

/-- C3 (amended): the values live_webm_encoder_main assigns to
encoder->encoder_state are among the four states ES_STARTING,
ES_RUNNING, ES_STOPPING, ES_STOPPED; ES_STOPPED is assigned exactly on
the bailout cleanup path, and processing branches exist only for
ES_STARTING, ES_RUNNING and ES_STOPPING — any other entry state falls
straight through to the bailout cleanup. -/
theorem encoder_main_state_assignment_range :
    ∀ (i : MainInputs) (e : Encoder),
      (∀ v ∈ main_state_assignments i e,
        v = .ES_STARTING ∨ v = .ES_RUNNING ∨ v = .ES_STOPPING ∨ v = .ES_STOPPED) ∧
      (EncoderState.ES_STOPPED ∈ main_state_assignments i e ↔ bailout_taken i e = true) ∧
      (bailout_taken i e = true → (live_webm_encoder_main i e).encoder_state = .ES_STOPPED) ∧
      (e.encoder_state = .ES_STOPPED →
        main_state_assignments i e = [.ES_STOPPED] ∧ bailout_taken i e = true) := by
  decide

/-- C4: setup evaluated at three outcome profiles.  With every stage
succeeding it returns SUCCEEDED holding all resources.  When
avio_alloc_context fails (all earlier stages succeeding) the fail3
cleanup dereferences the NULL self->avio_ctx, so the run is undefined
behaviour (none) instead of returning FAILED with the buffer and format
context released.  When swr_alloc fails inside open_stream, setup
returns FAILED but the two audio frames allocated by open_stream are
left allocated, so the state is not as it was before the call. -/
theorem setup_error_path_evaluation :
    setup ⟨true, true, true, true, true, true, true, true, true, true⟩ =
        some (.SUCCEEDED, ⟨true, true, true, true, true, true, true⟩) ∧
      setup ⟨true, true, true, true, false, true, true, true, true, true⟩ = none ∧
      setup ⟨true, true, true, true, true, true, true, false, true, true⟩ =
        some (.FAILED, ⟨false, false, false, false, true, true, false⟩) := by
  decide

/-- C5: avcodecdecode_reg returns ACCEPTED with the three decoder
callbacks installed exactly when the allocation, input open, stream
info, best-stream lookup and codec open all succeed; on any failure it
returns REJECTED with no callbacks installed, freeing the decoder state
whenever it had been allocated. -/
theorem avcodecdecode_reg_accepts_iff_all_succeed :
    ∀ p : RegProfile,
      ((avcodecdecode_reg p).result = ACCEPTED ∧
          (avcodecdecode_reg p).callbacks_installed = true ↔ all_reg_ok p = true) ∧
        (all_reg_ok p = false →
          (avcodecdecode_reg p).result = REJECTED ∧
            (avcodecdecode_reg p).callbacks_installed = false ∧
            ((avcodecdecode_reg p).self_allocated = true →
              (avcodecdecode_reg p).self_freed = true)) := by
  decide

/-- C6: when add_stream succeeds, the new stream's codec context takes
bit_rate, sample_rate and channels from the br/sr/ch arguments, its
channel_layout is stereo exactly when ch is 2 and mono otherwise, and
the stream's time base is 1/sr. -/
theorem add_stream_sets_config_from_args (o : AddStreamOutcome) (br sr ch : Int)
    (cfg : StreamConfig) (h : add_stream o br sr ch = some cfg) :
    cfg.bit_rate = br ∧ cfg.sample_rate = sr ∧ cfg.channels = ch ∧
      (ch = 2 → cfg.channel_layout = AV_CH_LAYOUT_STEREO) ∧
      (ch ≠ 2 → cfg.channel_layout = AV_CH_LAYOUT_MONO) ∧
      cfg.time_base_num = 1 ∧ cfg.time_base_den = sr := by
  unfold add_stream at h
  split at h
  · exact Option.noConfusion h
  · split at h
    · exact Option.noConfusion h
    · split at h
      · exact Option.noConfusion h
      · injection h with h
        subst h
        refine ⟨rfl, rfl, rfl, ?_, ?_, rfl, rfl⟩
        · intro hch
          simp [hch]
        · intro hch
          simp [hch]

/-- C6 witness: the theorem applied to a fully successful add_stream
call with bitrate 128000, rate 48000 and two channels. -/
theorem add_stream_sets_config_from_args_witness :
    add_stream ⟨true, true, true, true, 3, false⟩ 128000 48000 2 = some sampleStreamConfig ∧
      (sampleStreamConfig.bit_rate = 128000 ∧ sampleStreamConfig.sample_rate = 48000 ∧
        sampleStreamConfig.channels = 2 ∧
        ((2 : Int) = 2 → sampleStreamConfig.channel_layout = AV_CH_LAYOUT_STEREO) ∧
        ((2 : Int) ≠ 2 → sampleStreamConfig.channel_layout = AV_CH_LAYOUT_MONO) ∧
        sampleStreamConfig.time_base_num = 1 ∧ sampleStreamConfig.time_base_den = 48000) :=
  ⟨by decide, add_stream_sets_config_from_args ⟨true, true, true, true, 3, false⟩
    128000 48000 2 sampleStreamConfig (by decide)⟩

/-- C7: assuming the data_out malloc and src_new succeed,
avcodecdecode_init engages the resampler exactly when the stream's
sample rate differs from the player's, in which case src_ratio is the
player rate divided by the stream rate; with equal rates no resampler
state is created, no ratio is written, and avcodecdecode_play passes
the decoded buffer through with its frame count unchanged. -/
theorem avcodecdecode_init_resample_iff_rates_differ (p : InitProfile)
    (nb og : Int) (h1 : p.malloc_ok = true) (h2 : p.src_new_ok = true) :
    ((avcodecdecode_init p).resample = true ↔ p.stream_rate ≠ p.player_rate) ∧
      ((avcodecdecode_init p).resample = true →
        (avcodecdecode_init p).src_ratio =
          some ((p.player_rate : ℚ) / (p.stream_rate : ℚ))) ∧
      (p.stream_rate = p.player_rate →
        (avcodecdecode_init p).src_state_created = false ∧
          (avcodecdecode_init p).src_ratio = none ∧
          avcodecdecode_play_dispatch (avcodecdecode_init p).resample nb og =
            ⟨false, nb⟩) := by
  by_cases hr : p.stream_rate = p.player_rate <;>
    simp [avcodecdecode_init, avcodecdecode_play_dispatch, h1, h2, hr]

/-- C7 witness: the theorem applied to a 44100 Hz stream played at
48000 Hz with both allocations succeeding. -/
theorem avcodecdecode_init_resample_iff_rates_differ_witness :
    (⟨44100, 48000, 2, true, true⟩ : InitProfile).malloc_ok = true ∧
      (⟨44100, 48000, 2, true, true⟩ : InitProfile).src_new_ok = true ∧
      (((avcodecdecode_init ⟨44100, 48000, 2, true, true⟩).resample = true ↔
          (44100 : Int) ≠ 48000) ∧
        ((avcodecdecode_init ⟨44100, 48000, 2, true, true⟩).resample = true →
          (avcodecdecode_init ⟨44100, 48000, 2, true, true⟩).src_ratio =
            some (((48000 : Int) : ℚ) / ((44100 : Int) : ℚ))) ∧
        ((44100 : Int) = 48000 →
          (avcodecdecode_init ⟨44100, 48000, 2, true, true⟩).src_state_created = false ∧
            (avcodecdecode_init ⟨44100, 48000, 2, true, true⟩).src_ratio = none ∧
            avcodecdecode_play_dispatch
              (avcodecdecode_init ⟨44100, 48000, 2, true, true⟩).resample 100 90 =
              ⟨false, 100⟩)) :=
  ⟨rfl, rfl, avcodecdecode_init_resample_iff_rates_differ ⟨44100, 48000, 2, true, true⟩
    100 90 rfl rfl⟩

theorem interleave2_length (s : ℚ → ℚ) (l r : ℕ → ℚ) (n : ℕ) :
    (interleave2 s l r n).length = 2 * n := by
  induction n with
  | zero => rfl
  | succ n ih =>
    rw [interleave2]
    simp [ih]
    omega

theorem mono1_length (s : ℚ → ℚ) (l : ℕ → ℚ) (n : ℕ) :
    (mono1 s l n).length = n := by
  induction n with
  | zero => rfl
  | succ n ih =>
    rw [mono1]
    simp [ih]

theorem interleave2_get_even (s : ℚ → ℚ) (l r : ℕ → ℚ) (n i : ℕ) (h : i < n) :
    (interleave2 s l r n).get? (2 * i) = some (s (l i)) := by
  induction n with
  | zero => omega
  | succ n ih =>
    rcases Nat.lt_succ_iff_lt_or_eq.mp h with h1 | h1
    · rw [interleave2, List.get?_append (by rw [interleave2_length]; omega)]
      exact ih h1
    · subst h1
      rw [interleave2, List.get?_append_right (by rw [interleave2_length])]
      simp [interleave2_length]

theorem interleave2_get_odd (s : ℚ → ℚ) (l r : ℕ → ℚ) (n i : ℕ) (h : i < n) :
    (interleave2 s l r n).get? (2 * i + 1) = some (s (r i)) := by
  induction n with
  | zero => omega
  | succ n ih =>
    rcases Nat.lt_succ_iff_lt_or_eq.mp h with h1 | h1
    · rw [interleave2, List.get?_append (by rw [interleave2_length]; omega)]
      exact ih h1
    · subst h1
      rw [interleave2, List.get?_append_right (by rw [interleave2_length]; omega)]
      simp [interleave2_length]

theorem mono1_get (s : ℚ → ℚ) (l : ℕ → ℚ) (n i : ℕ) (h : i < n) :
    (mono1 s l n).get? i = some (s (l i)) := by
  induction n with
  | zero => omega
  | succ n ih =>
    rcases Nat.lt_succ_iff_lt_or_eq.mp h with h1 | h1
    · rw [mono1, List.get?_append (by rw [mono1_length]; omega)]
      exact ih h1
    · subst h1
      rw [mono1, List.get?_append_right (by rw [mono1_length])]
      simp [mono1_length]

/-- C8: in every 2-channel planar conversion case the output
interleaves the planes — element 2i is sample i of plane 0 and element
2i+1 is sample i of plane 1 — with S16P samples divided by 32768 and
S32P samples divided by 1073741824; with one channel the output is
plane 0 in order (scaled the same way). -/
theorem planar_conversion_interleaves_planes (l r : ℕ → ℚ) (n i : ℕ) (h : i < n) :
    (conv_fltp_stereo l r n).get? (2 * i) = some (l i) ∧
      (conv_fltp_stereo l r n).get? (2 * i + 1) = some (r i) ∧
      (conv_dblp_stereo l r n).get? (2 * i) = some (l i) ∧
      (conv_dblp_stereo l r n).get? (2 * i + 1) = some (r i) ∧
      (conv_s16p_stereo l r n).get? (2 * i) = some (l i / 32768) ∧
      (conv_s16p_stereo l r n).get? (2 * i + 1) = some (r i / 32768) ∧
      (conv_s32p_stereo l r n).get? (2 * i) = some (l i / 1073741824) ∧
      (conv_s32p_stereo l r n).get? (2 * i + 1) = some (r i / 1073741824) ∧
      (conv_fltp_mono l n).get? i = some (l i) ∧
      (conv_dblp_mono l n).get? i = some (l i) ∧
      (conv_s16p_mono l n).get? i = some (l i / 32768) ∧
      (conv_s32p_mono l n).get? i = some (l i / 1073741824) :=
  ⟨interleave2_get_even id l r n i h, interleave2_get_odd id l r n i h,
   interleave2_get_even id l r n i h, interleave2_get_odd id l r n i h,
   interleave2_get_even (fun x => x / 32768) l r n i h,
   interleave2_get_odd (fun x => x / 32768) l r n i h,
   interleave2_get_even (fun x => x / 1073741824) l r n i h,
   interleave2_get_odd (fun x => x / 1073741824) l r n i h,
   mono1_get id l n i h, mono1_get id l n i h,
   mono1_get (fun x => x / 32768) l n i h,
   mono1_get (fun x => x / 1073741824) l n i h⟩

/-- C8 witness: the theorem applied to constant planes with values 3
and 5, one frame, index 0. -/
theorem planar_conversion_interleaves_planes_witness :
    0 < 1 ∧
      ((conv_fltp_stereo (fun _ => (3 : ℚ)) (fun _ => (5 : ℚ)) 1).get? (2 * 0) = some 3 ∧
        (conv_fltp_stereo (fun _ => (3 : ℚ)) (fun _ => (5 : ℚ)) 1).get? (2 * 0 + 1) = some 5 ∧
        (conv_dblp_stereo (fun _ => (3 : ℚ)) (fun _ => (5 : ℚ)) 1).get? (2 * 0) = some 3 ∧
        (conv_dblp_stereo (fun _ => (3 : ℚ)) (fun _ => (5 : ℚ)) 1).get? (2 * 0 + 1) = some 5 ∧
        (conv_s16p_stereo (fun _ => (3 : ℚ)) (fun _ => (5 : ℚ)) 1).get? (2 * 0) =
          some (3 / 32768) ∧
        (conv_s16p_stereo (fun _ => (3 : ℚ)) (fun _ => (5 : ℚ)) 1).get? (2 * 0 + 1) =
          some (5 / 32768) ∧
        (conv_s32p_stereo (fun _ => (3 : ℚ)) (fun _ => (5 : ℚ)) 1).get? (2 * 0) =
          some (3 / 1073741824) ∧
        (conv_s32p_stereo (fun _ => (3 : ℚ)) (fun _ => (5 : ℚ)) 1).get? (2 * 0 + 1) =
          some (5 / 1073741824) ∧
        (conv_fltp_mono (fun _ => (3 : ℚ)) 1).get? 0 = some 3 ∧
        (conv_dblp_mono (fun _ => (3 : ℚ)) 1).get? 0 = some 3 ∧
        (conv_s16p_mono (fun _ => (3 : ℚ)) 1).get? 0 = some (3 / 32768) ∧
        (conv_s32p_mono (fun _ => (3 : ℚ)) 1).get? 0 = some (3 / 1073741824)) :=
  ⟨by decide,
   planar_conversion_interleaves_planes (fun _ => (3 : ℚ)) (fun _ => (5 : ℚ)) 1 0 (by decide)⟩

theorem write_packet_self_flags (s : WebMSelf) (e : WebMEnc) (b : Int) :
    (write_packet s e b).self = ⟨s.next_pts, pfClear s.packet_flags PF_INITIAL⟩ := by
  cases h : s.packet_flags.pf_suppress <;> simp [write_packet, h]

theorem pfClear_initial_idem (f : PacketFlags) :
    pfClear (pfClear f PF_INITIAL) PF_INITIAL = pfClear f PF_INITIAL := by
  cases f
  simp [pfClear, PF_INITIAL]

theorem pfClear_initial_suppress (f : PacketFlags) :
    (pfClear f PF_INITIAL).pf_suppress = f.pf_suppress := by
  simp [pfClear, PF_INITIAL]

theorem run_callbacks_self_flags (bs : List Int) :
    ∀ (s : WebMSelf) (e : WebMEnc),
      (run_callbacks s e bs).self.packet_flags =
        if bs.isEmpty then s.packet_flags else pfClear s.packet_flags PF_INITIAL := by
  induction bs with
  | nil => intro s e; rfl
  | cons b bs ih =>
    intro s e
    simp only [run_callbacks]
    rw [ih, write_packet_self_flags]
    rcases bs with _ | ⟨c, cs⟩ <;> simp [pfClear_initial_idem]

theorem run_callbacks_suppress (bs : List Int) :
    ∀ (s : WebMSelf) (e : WebMEnc), s.packet_flags.pf_suppress = true →
      (run_callbacks s e bs).emitted = [] ∧ (run_callbacks s e bs).enc = e ∧
        (run_callbacks s e bs).self.packet_flags.pf_suppress = true := by
  induction bs with
  | nil => intro s e h; exact ⟨rfl, rfl, h⟩
  | cons b bs ih =>
    intro s e h
    have hw : write_packet s e b =
        ⟨[], ⟨s.next_pts, pfClear s.packet_flags PF_INITIAL⟩, e, 1⟩ := by
      simp [write_packet, h]
    have hs : (⟨s.next_pts, pfClear s.packet_flags PF_INITIAL⟩ : WebMSelf).packet_flags.pf_suppress = true := by
      rw [pfClear_initial_suppress]
      exact h
    obtain ⟨h1, h2, h3⟩ := ih ⟨s.next_pts, pfClear s.packet_flags PF_INITIAL⟩ e hs
    simp only [run_callbacks]
    rw [hw]
    simp [h1, h2, h3]

/-- C9: write_header and write_trailer restore the transient bits of
packet_flags before returning.  For any initial flags f, caller extra
flags E and any run of muxer write callbacks: after write_header,
PF_HEADER and the bits of E read false, PF_INITIAL is still set exactly
when no packet went out during the header write (each write_packet
clears it) and not demanded cleared by E, and every other bit keeps its
initial value; after write_trailer, PF_FINAL and the bits of E read
false, PF_INITIAL is false (the trailer's own write_packet cleared it),
and every other bit keeps its initial value. -/
theorem write_header_trailer_restore_packet_flags (pts : Int) (f E : PacketFlags)
    (e : WebMEnc) (hbufs tbufs : List Int) (hret tret : Int) :
    (write_header ⟨pts, f⟩ e E hbufs hret).self.packet_flags =
      ⟨f.pf_webm && !E.pf_webm, false, f.pf_final && !E.pf_final,
       hbufs.isEmpty && !E.pf_initial, f.pf_suppress && !E.pf_suppress,
       f.pf_other && !E.pf_other⟩ ∧
    (write_trailer ⟨pts, f⟩ e E tbufs tret).self.packet_flags =
      ⟨f.pf_webm && !E.pf_webm, f.pf_header && !E.pf_header, false, false,
       f.pf_suppress && !E.pf_suppress, f.pf_other && !E.pf_other⟩ := by
  constructor
  · simp only [write_header]
    rw [run_callbacks_self_flags]
    obtain ⟨a, b2, c, d, g, o⟩ := f
    obtain ⟨a2, b3, c2, d2, g2, o2⟩ := E
    rcases hbufs with _ | ⟨x, xs⟩ <;>
      · simp [pfOr, pfClear, PF_HEADER, PF_INITIAL]
        revert a b2 c d g o a2 b3 c2 d2 g2 o2
        decide
  · simp only [write_trailer]
    rw [write_packet_self_flags]
    simp only []
    rw [run_callbacks_self_flags]
    obtain ⟨a, b2, c, d, g, o⟩ := f
    obtain ⟨a2, b3, c2, d2, g2, o2⟩ := E
    rcases tbufs with _ | ⟨x, xs⟩ <;>
      · simp [pfOr, pfClear, PF_HEADER, PF_INITIAL, PF_FINAL]
        revert a b2 c d g o a2 b3 c2 d2 g2 o2
        decide

/-- C10: with PF_SUPPRESS set in packet_flags, write_packet emits no
packet downstream, leaves every encoder field unchanged and still
returns 1; and write_header called with PF_SUPPRESS among its extra
flags does not increment encoder->oggserial, so the serial advances
only for non-suppressed headers. -/
theorem suppressed_stream_emits_nothing (pts pts2 b hret : Int) (f g E : PacketFlags)
    (e e2 : WebMEnc) (bufs : List Int)
    (h1 : f.pf_suppress = true) (h2 : E.pf_suppress = true) :
    (write_packet ⟨pts, f⟩ e b).emitted = [] ∧
      (write_packet ⟨pts, f⟩ e b).enc = e ∧
      (write_packet ⟨pts, f⟩ e b).ret = 1 ∧
      (write_header ⟨pts2, g⟩ e2 E bufs hret).enc.oggserial = e2.oggserial := by
  refine ⟨?_, ?_, ?_, ?_⟩
  · simp [write_packet, h1]
  · simp [write_packet, h1]
  · simp [write_packet, h1]
  · have hs : (⟨pts2, pfOr g (pfOr (pfOr PF_HEADER PF_INITIAL) E)⟩ : WebMSelf).packet_flags.pf_suppress = true := by
      simp [pfOr, h2]
    have h3 := (run_callbacks_suppress bufs
      ⟨pts2, pfOr g (pfOr (pfOr PF_HEADER PF_INITIAL) E)⟩ e2 hs).2.1
    simp [write_header, h2, h3]

/-- C10 witness: the theorem applied to a suppressed packet of 100
bytes and a suppressed header write that flushes two buffers. -/
theorem suppressed_stream_emits_nothing_witness :
    PF_SUPPRESS.pf_suppress = true ∧ PF_SUPPRESS.pf_suppress = true ∧
      ((write_packet ⟨0, PF_SUPPRESS⟩ sampleWebMEnc 100).emitted = [] ∧
        (write_packet ⟨0, PF_SUPPRESS⟩ sampleWebMEnc 100).enc = sampleWebMEnc ∧
        (write_packet ⟨0, PF_SUPPRESS⟩ sampleWebMEnc 100).ret = 1 ∧
        (write_header ⟨7, PF_WEBM⟩ sampleWebMEnc PF_SUPPRESS [10, 20] 0).enc.oggserial =
          sampleWebMEnc.oggserial) :=
  ⟨rfl, rfl, suppressed_stream_emits_nothing 0 7 100 0 PF_SUPPRESS PF_WEBM PF_SUPPRESS
    sampleWebMEnc sampleWebMEnc [10, 20] rfl rfl⟩
